import Mathlib

/-!
# Verification of the report-compilation pipeline (`backend/nodes/editor.py`)

A shallow embedding of the `Editor` class of `src/backend/nodes/editor.py`.
Python strings are modelled as lists of characters (`Str`), exceptions as
`Except`, and the external collaborators (OpenAI chat completions, the
websocket notification channel, the product-catalog query and `json.loads`)
as oracle parameters: an `Except.error` value of an oracle models the
corresponding call raising an exception, and a `Bool` send flag models
whether a `send_status_update` call succeeds (`true`) or raises (`false`).
All modelled functions are total Lean functions, so every exception path of
the source is an explicit value, never a missing case.
-/

/-- Python strings, modelled as lists of characters. -/
abbrev Str := List Char

/-- The whitespace set of Python's `str.strip()` restricted to the characters
that occur in this pipeline: space, tab, CR, LF, vertical tab, form feed. -/
def pyWhitespace (c : Char) : Bool :=
  c.isWhitespace || c = '\x0b' || c = '\x0c'

/-- Python `s.strip()`: drop leading and trailing whitespace. -/
def pyStrip (s : Str) : Str :=
  ((s.dropWhile pyWhitespace).reverse.dropWhile pyWhitespace).reverse

/-- Python `sep.join(parts)`. -/
def pyJoin (sep : Str) : List Str → Str
  | [] => []
  | [x] => x
  | x :: xs => x ++ sep ++ pyJoin sep xs

/-- Python truthiness of an optional string (`None` and `""` are falsy):
returns the content exactly when it is truthy. -/
def truthyStr : Option Str → Option Str
  | none => none
  | some s => if s.isEmpty then none else some s

/-- Decimal rendering of a natural number, as used by Python f-strings. -/
def natStr (n : Nat) : Str := (toString n).data

/-! ## The streamed structure sweep (`Editor.content_sweep`, lines 324-438)

The streamed chat completion is modelled as the list of non-`None` delta
fragments it yields, together with a flag telling whether the iteration
reaches the `finish_reason == "stop"` chunk (`endOk = true`) or raises after
the listed fragments (`endOk = false`).  `sendOk n` tells whether the `n`-th
attempted `send_status_update` inside `content_sweep` succeeds. -/

/-- A streamed generative response: its delta fragments in order, and whether
the stream terminates normally with a stop chunk. -/
structure GenStream where
  frags : List Str
  endOk : Bool
deriving Repr, DecidableEq

/-- Loop state of the fragment-consumption loop of `content_sweep`:
`acc` is `accumulated_text`, `buf` is `buffer`, `sent` the chunks emitted so
far as `report_chunk` notifications, `idx` the number of send attempts. -/
structure SweepState where
  acc : Str
  buf : Str
  sent : List Str
  idx : Nat
deriving Repr, DecidableEq

/-- The flush condition of line 421:
`any(char in buffer for char in [".", "!", "?", "\n"]) and len(buffer) > 10`. -/
def flushReady (buf : Str) : Bool :=
  (buf.contains '.' || buf.contains '!' || buf.contains '?' || buf.contains '\n')
    && buf.length > 10

/-- One iteration of the `async for chunk in response` loop (lines 399-433)
on a fragment with delta content `frag`.  A falsy fragment is skipped
(line 417).  On a flush, the chunk notification is attempted only when both
`websocket_manager` and `job_id` are truthy, but the buffer is cleared in
every case (line 433 sits outside the walrus guards); a raising send aborts
the loop with an exception (`Except.error`, carrying the chunks already
emitted). -/
def sweepFrag (ws jid : Bool) (sendOk : Nat → Bool) (st : SweepState) (frag : Str) :
    Except (List Str) SweepState :=
  if frag.isEmpty then .ok st
  else
    let acc := st.acc ++ frag
    let buf := st.buf ++ frag
    if flushReady buf then
      if ws && jid then
        if sendOk st.idx then .ok ⟨acc, [], st.sent ++ [buf], st.idx + 1⟩
        else .error st.sent
      else .ok ⟨acc, [], st.sent, st.idx⟩
    else .ok ⟨acc, buf, st.sent, st.idx⟩

/-- The whole consumption loop over a list of fragments. -/
def sweepFrags (ws jid : Bool) (sendOk : Nat → Bool) :
    List Str → SweepState → Except (List Str) SweepState
  | [], st => .ok st
  | f :: fs, st =>
    match sweepFrag ws jid sendOk st f with
    | .error sent => .error sent
    | .ok st' => sweepFrags ws jid sendOk fs st'

/-- The `finish_reason == "stop"` branch (lines 400-414): flush the residual
buffer as a final chunk when a websocket manager is present, the buffer is
non-empty and a job id is present; returns the final list of emitted chunks,
or an exception if that send raises. -/
def sweepFinish (ws jid : Bool) (sendOk : Nat → Bool) (st : SweepState) :
    Except (List Str) (List Str) :=
  if ws && !st.buf.isEmpty then
    if jid then
      if sendOk st.idx then .ok (st.sent ++ [st.buf]) else .error st.sent
    else .ok st.sent
  else .ok st.sent

/-- `Editor.content_sweep(state, content, company)`: returns the text the
function returns together with the list of `report_chunk` payloads emitted.
Any exception inside the `try` block — the stream raising (`endOk = false`)
or a chunk send raising — is caught by the stage-level handler of lines
436-438, which returns `(content or "").strip()`. -/
def content_sweep (content : Str) (ws jid : Bool) (sendOk : Nat → Bool)
    (stream : GenStream) : Str × List Str :=
  match sweepFrags ws jid sendOk stream.frags ⟨[], [], [], 0⟩ with
  | .error sent => (pyStrip content, sent)
  | .ok st =>
    if stream.endOk then
      match sweepFinish ws jid sendOk st with
      | .error sent => (pyStrip content, sent)
      | .ok sent => (pyStrip st.acc, sent)
    else (pyStrip content, st.sent)

/-! ## The section compiler (`Editor.compile_content`, lines 242-322)

The chat-completion call is an oracle `llm : Except Unit Str` (`.error`
models the call raising, `.ok t` a response whose message content is `t`).
`format_references_section` is external; its rendered output is the
parameter `refText`, used only when the `references` list is truthy. -/

/-- `Editor.compile_content(state, briefings, company)` where
`briefingValues = list(briefings.values())` in insertion order and
`references = state.get("references", [])` (each reference record is kept
opaque).  On success the model output is stripped and, when references are
present and render non-empty, the rendered block is appended after a
paragraph break (lines 313-319); on an exception the raw concatenation is
returned stripped, without the references block (line 322). -/
def compile_content (briefingValues : List Str) (references : List Str)
    (refText : Str) (llm : Except Unit Str) : Str :=
  let combined_content := pyJoin "\n\n".data briefingValues
  let reference_text := if references.isEmpty then [] else refText
  match llm with
  | .ok t =>
    let initial_report := pyStrip t
    if reference_text.isEmpty then initial_report
    else initial_report ++ "\n\n".data ++ reference_text
  | .error _ => pyStrip combined_content

/-! ## The recommendation step (`Editor.edit_report`, lines 150-166)

A catalog row of `SELECT * FROM products WHERE deleted_at IS NULL`. -/

/-- A product record of the catalog snapshot. -/
structure Product where
  id : Int
  name : Str
  description : Str
  note : Str
  priority : Str
  link : Str
deriving Repr, DecidableEq

/-- A parsed element of the model's recommendation JSON array, following the
structure mandated by the prompt of
`Editor.generate_product_recommendation_json`. -/
structure RecRecord where
  product_id : Int
  product_name : Str
  reason : Str
  potential : Str
  reminder_notes : Str
  action : Str
deriving Repr, DecidableEq

/-- The `try` block of lines 151-166: query the catalog snapshot, feed it
(as `product_context`) with the final report into the generative call, and
`json.loads` the response.  `catalog` is the query outcome;
`recLLM ps` is the outcome of the generative call followed by `json.loads`,
as a function of the snapshot `ps` it was shown.  Any exception — query,
generative call or parse — lands in the `except` of lines 164-166, producing
the empty list.  On success the parsed list is stored verbatim: the source
performs no validation or filtering of `product_id` values. -/
def recommendationStep (catalog : Except Unit (List Product))
    (recLLM : List Product → Except Unit (List RecRecord)) : List RecRecord :=
  match catalog with
  | .error _ => []
  | .ok ps =>
    match recLLM ps with
    | .error _ => []
    | .ok recs => recs

/-- The id set of a catalog snapshot. -/
def catalogIds (ps : List Product) : List Int := ps.map Product.id

/-! ## Construction (`Editor.__init__`, lines 18-29) -/

/-- The `self.context` dictionary. -/
structure EditorContext where
  company : Str
  industry : Str
  hq_location : Str
deriving Repr, DecidableEq

/-- `Editor.__init__`: `os.getenv("OPENAI_API_KEY")` is `key` (`none` when
the variable is unset).  A falsy key (`None` or `""`) raises `ValueError`
(modelled as `.error` carrying the message); otherwise construction succeeds
with the sentinel context of lines 25-29. -/
def editorInit (key : Option Str) : Except Str EditorContext :=
  match key with
  | none => .error "OPENAI_API_KEY environment variable is not set".data
  | some k =>
    if k.isEmpty then .error "OPENAI_API_KEY environment variable is not set".data
    else .ok ⟨"Unknown Company".data, "Unknown".data, "Unknown".data⟩

/-- Whether `editorInit` raised `ValueError`. -/
def initRaised (r : Except Str EditorContext) : Bool :=
  match r with
  | .error _ => true
  | .ok _ => false

/-! ## Pipeline state and orchestration -/

/-- The fields of the `ResearchState` dictionary that the editor node reads
or writes.  `messages` is the log (`state.setdefault("messages", [])` makes
an absent key and an empty list indistinguishable for appends), each entry
the content of one `AIMessage`.  `editor_report` models
`state["editor"]["report"]`.  `has_websocket` / `has_job_id` model the
truthiness of `state.get("websocket_manager")` / `state.get("job_id")`. -/
structure ResearchState where
  company : Option Str
  industry : Option Str
  hq_location : Option Str
  company_briefing : Option Str
  industry_briefing : Option Str
  financial_briefing : Option Str
  news_briefing : Option Str
  references : List Str
  report : Option Str
  status : Option Str
  product_recommendation : Option (List RecRecord)
  editor_report : Option Str
  messages : List Str
  has_websocket : Bool
  has_job_id : Bool
deriving Repr, DecidableEq

/-- Outcomes of the external calls one `edit_report` invocation performs, in
program order.  Each `send…Ok` flag tells whether the corresponding
`send_status_update` succeeds when attempted. -/
structure Oracles where
  refText : Str
  compileLLM : Except Unit Str
  sweepStream : GenStream
  sweepSendOk : Nat → Bool
  sendCompilationOk : Bool
  sendCleanupOk : Bool
  sendFormatOk : Bool
  sendFinalOk : Bool
  catalog : Except Unit (List Product)
  recLLM : List Product → Except Unit (List RecRecord)

/-- A `send_status_update` guarded by the walrus checks
`if websocket_manager := state.get(...)` / `if job_id := state.get(...)`:
it can only raise when both are truthy and the send fails. -/
def notifyOk (st : ResearchState) (ok : Bool) : Bool :=
  !(st.has_websocket && st.has_job_id) || ok

/-- `Editor.edit_report(state, briefings, context)` (lines 95-187), with
`briefingValues = list(briefings.values())`.  Returns the state after the
call and the returned value: `some (final_report, product_recommendation)`
for the tuple return of line 184, `none` for every `return ""` path
(lines 111, 137, 187).  The outer `try/except` turns any uncaught exception
— in particular a raising status send — into `return ""`, keeping the state
mutations already performed. -/
def edit_report (st : ResearchState) (briefingValues : List Str) (o : Oracles) :
    ResearchState × Option (Str × List RecRecord) :=
  if !notifyOk st o.sendCompilationOk then (st, none)
  else
    let edited_report := compile_content briefingValues st.references o.refText o.compileLLM
    if edited_report.isEmpty then (st, none)
    else if !notifyOk st o.sendCleanupOk then (st, none)
    else if !notifyOk st o.sendFormatOk then (st, none)
    else
      let final_report :=
        (content_sweep edited_report st.has_websocket st.has_job_id o.sweepSendOk
          o.sweepStream).fst
      if (pyStrip final_report).isEmpty then (st, none)
      else
        let st1 := { st with
          report := some final_report
          status := some "editor_complete".data
          editor_report := some final_report }
        let recs := recommendationStep o.catalog o.recLLM
        let st2 := { st1 with product_recommendation := some recs }
        if !notifyOk st2 o.sendFinalOk then (st2, none)
        else (st2, some (final_report, recs))

/-! ## The orchestrator (`Editor.compile_briefings`, lines 31-93) -/

/-- The briefing categories in the insertion order of `briefing_keys`
(line 55), each paired with the state field it reads. -/
def briefingEntries (st : ResearchState) : List (Str × Option Str) :=
  [("company".data, st.company_briefing),
   ("industry".data, st.industry_briefing),
   ("financial".data, st.financial_briefing),
   ("news".data, st.news_briefing)]

/-- `individual_briefings` (lines 71-78): the truthy briefing contents, in
category order. -/
def collectBriefings (st : ResearchState) : List Str :=
  (briefingEntries st).filterMap (fun p => truthyStr p.2)

/-- The log line the collection loop adds for one category (lines 73-77). -/
def briefingLine (category : Str) (content : Option Str) : Str :=
  match truthyStr content with
  | some c =>
      "Found ".data ++ category ++ " briefing (".data ++ natStr c.length
        ++ " characters)".data
  | none => "No ".data ++ category ++ " briefing available".data

/-- The `msg` list just after the collection loop (lines 54-78). -/
def collectMsgLines (st : ResearchState) : List Str :=
  ("📑 Compiling final report for ".data
      ++ (st.company.getD "Unknown Company".data) ++ "...".data)
    :: (briefingEntries st).map (fun p => briefingLine p.1 p.2)

/-- The content of the single `AIMessage` appended at line 92: the `msg`
lines joined by newlines, with the warning line added when no briefing was
collected (line 81). -/
def compileBriefingsMessage (st : ResearchState) : Str :=
  let lines :=
    if (collectBriefings st).isEmpty then
      collectMsgLines st ++ ["\n⚠️ No briefing sections available to compile".data]
    else collectMsgLines st
  pyJoin "\n".data lines

/-- `Editor.compile_briefings(state)` (lines 31-93).  The two status sends
of lines 39-46 and 62-69 are *not* inside any `try`: when attempted and
failing they propagate out of the function (`.error`), before anything is
appended to the log.  With an empty `individual_briefings` the compilation
is skipped (line 80); otherwise `edit_report` runs (its own handler catches
every exception, so the `try` of lines 84-91 never sees one in this model).
In either case exactly one consolidated `AIMessage` is appended. -/
def compile_briefings (st : ResearchState) (o : Oracles)
    (sendInitOk sendCollectOk : Bool) : Except Unit ResearchState :=
  if !notifyOk st sendInitOk then .error ()
  else if !notifyOk st sendCollectOk then .error ()
  else
    let briefs := collectBriefings st
    let st' := if briefs.isEmpty then st else (edit_report st briefs o).fst
    .ok { st' with messages := st'.messages ++ [compileBriefingsMessage st] }

/-! ## Helper lemmas -/

/-- An element failing the predicate survives `dropWhile`. -/
lemma mem_dropWhile_of_not (p : Char → Bool) (c : Char) :
    ∀ (l : Str), c ∈ l → p c = false → c ∈ l.dropWhile p := by
  intro l
  induction l with
  | nil => intro h; exact absurd h (List.not_mem_nil c)
  | cons a t ih =>
    intro hc hpc
    by_cases hpa : p a = true
    · rw [List.dropWhile_cons_of_pos hpa]
      rcases List.mem_cons.mp hc with rfl | ht
      · rw [hpa] at hpc; exact absurd hpc (by simp)
      · exact ih ht hpc
    · rw [List.dropWhile_cons_of_neg hpa]
      exact hc

/-- A string containing a non-whitespace character does not strip to the
empty string. -/
lemma pyStrip_ne_nil (s : Str) (c : Char) (hc : c ∈ s)
    (hw : pyWhitespace c = false) : pyStrip s ≠ [] := by
  unfold pyStrip
  have h1 : c ∈ s.dropWhile pyWhitespace := mem_dropWhile_of_not pyWhitespace c s hc hw
  have h2 : c ∈ (s.dropWhile pyWhitespace).reverse := List.mem_reverse.mpr h1
  have h3 : c ∈ (s.dropWhile pyWhitespace).reverse.dropWhile pyWhitespace :=
    mem_dropWhile_of_not pyWhitespace c _ h2 hw
  intro hnil
  rw [List.reverse_eq_nil_iff] at hnil
  rw [hnil] at h3
  exact List.not_mem_nil c h3

/-- A character of a joined part is a character of the join. -/
lemma mem_pyJoin (sep : Str) (c : Char) :
    ∀ (l : List Str) (b : Str), b ∈ l → c ∈ b → c ∈ pyJoin sep l := by
  intro l
  induction l with
  | nil => intro b hb; exact absurd hb (List.not_mem_nil b)
  | cons x xs ih =>
    intro b hb hc
    cases xs with
    | nil =>
      rcases List.mem_cons.mp hb with rfl | hb'
      · exact hc
      · exact absurd hb' (List.not_mem_nil b)
    | cons y ys =>
      show c ∈ x ++ sep ++ pyJoin sep (y :: ys)
      rcases List.mem_cons.mp hb with rfl | hb'
      · exact List.mem_append_left _ (List.mem_append_left _ hc)
      · exact List.mem_append_right _ (ih b hb' hc)

/-- With the notifier present and every send succeeding, the consumption
loop never raises and preserves the invariant that the accumulated text is
the concatenation of the emitted chunks followed by the residual buffer. -/
lemma sweepFrags_ok_inv (sendOk : Nat → Bool) (h : ∀ n, sendOk n = true) :
    ∀ (frags : List Str) (st : SweepState), st.acc = st.sent.flatten ++ st.buf →
      ∃ st', sweepFrags true true sendOk frags st = .ok st'
        ∧ st'.acc = st'.sent.flatten ++ st'.buf := by
  intro frags
  induction frags with
  | nil => intro st hst; exact ⟨st, rfl, hst⟩
  | cons f fs ih =>
    intro st hst
    by_cases hf : f.isEmpty
    · have hstep : sweepFrag true true sendOk st f = .ok st := by
        simp [sweepFrag, hf]
      rw [sweepFrags, hstep]
      exact ih st hst
    · by_cases hfl : flushReady (st.buf ++ f) = true
      · have hstep : sweepFrag true true sendOk st f =
            .ok ⟨st.acc ++ f, [], st.sent ++ [st.buf ++ f], st.idx + 1⟩ := by
          simp [sweepFrag, hf, hfl, h st.idx]
        rw [sweepFrags, hstep]
        apply ih
        simp [hst, List.flatten_append, List.append_assoc]
      · have hstep : sweepFrag true true sendOk st f =
            .ok ⟨st.acc ++ f, st.buf ++ f, st.sent, st.idx⟩ := by
          simp [sweepFrag, hf, hfl]
        rw [sweepFrags, hstep]
        apply ih
        simp [hst, List.append_assoc]

/-- The accumulated text and the residual buffer evolve identically whether
or not a notifier is attached, as long as every attempted send succeeds
(the buffer is cleared on a flush in both cases, line 433 being outside the
walrus guards). -/
lemma sweepFrags_acc_independent (sendOk sendOk' : Nat → Bool)
    (h : ∀ n, sendOk n = true) (jid' : Bool) :
    ∀ (frags : List Str) (st st' : SweepState),
      st.acc = st'.acc → st.buf = st'.buf →
      ∃ r r', sweepFrags true true sendOk frags st = .ok r
        ∧ sweepFrags false jid' sendOk' frags st' = .ok r'
        ∧ r.acc = r'.acc ∧ r.buf = r'.buf := by
  intro frags
  induction frags with
  | nil => intro st st' ha hb; exact ⟨st, st', rfl, rfl, ha, hb⟩
  | cons f fs ih =>
    intro st st' ha hb
    by_cases hf : f.isEmpty
    · have hstep : sweepFrag true true sendOk st f = .ok st := by
        simp [sweepFrag, hf]
      have hstep' : sweepFrag false jid' sendOk' st' f = .ok st' := by
        simp [sweepFrag, hf]
      rw [sweepFrags, hstep, sweepFrags, hstep']
      exact ih st st' ha hb
    · by_cases hfl : flushReady (st.buf ++ f) = true
      · have hstep : sweepFrag true true sendOk st f =
            .ok ⟨st.acc ++ f, [], st.sent ++ [st.buf ++ f], st.idx + 1⟩ := by
          simp [sweepFrag, hf, hfl, h st.idx]
        have hstep' : sweepFrag false jid' sendOk' st' f =
            .ok ⟨st'.acc ++ f, [], st'.sent, st'.idx⟩ := by
          simp [sweepFrag, hf, hb ▸ hfl]
        rw [sweepFrags, hstep, sweepFrags, hstep']
        exact ih _ _ (by simp [ha]) rfl
      · have hstep : sweepFrag true true sendOk st f =
            .ok ⟨st.acc ++ f, st.buf ++ f, st.sent, st.idx⟩ := by
          simp [sweepFrag, hf, hfl]
        have hstep' : sweepFrag false jid' sendOk' st' f =
            .ok ⟨st'.acc ++ f, st'.buf ++ f, st'.sent, st'.idx⟩ := by
          simp [sweepFrag, hf, hb ▸ hfl]
        rw [sweepFrags, hstep, sweepFrags, hstep']
        exact ih _ _ (by simp [ha]) (by simp [hb])

/-! ## Claim theorems -/

/-- C10: constructing an `Editor` raises `ValueError` exactly when
`OPENAI_API_KEY` is unset or empty; otherwise construction succeeds and the
profile context is initialized to the sentinel values
`company = "Unknown Company"`, `industry = "Unknown"`,
`hq_location = "Unknown"`. -/
theorem editorInit_spec (key : Option Str) :
    editorInit key =
      if key = none ∨ key = some [] then
        .error "OPENAI_API_KEY environment variable is not set".data
      else .ok ⟨"Unknown Company".data, "Unknown".data, "Unknown".data⟩ := by
  cases key with
  | none => simp [editorInit]
  | some k =>
    cases k with
    | nil => simp [editorInit]
    | cons c cs => simp [editorInit]

/-- C5 counterexample: when the generative call inside `content_sweep`
raises, the draft `" Draft report. "` is *not* returned byte-for-byte — the
stage handler returns `(content or "").strip()`, which drops the
surrounding whitespace. -/
theorem content_sweep_fallback_not_verbatim :
    (content_sweep " Draft report. ".data true true (fun _ => true)
        ⟨[], false⟩).fst ≠ " Draft report. ".data := by decide

/-- C5 (amended): if the generative call inside `content_sweep` raises —
before yielding anything or mid-stream after any prefix of fragments — the
function returns the original draft stripped of leading and trailing
whitespace (so byte-for-byte equal to its input exactly when the input has
none), and no exception propagates to the caller (the model function is
total and this equation covers every raising stream). -/
theorem content_sweep_raise_returns_stripped_draft (content : Str)
    (ws jid : Bool) (sendOk : Nat → Bool) (frags : List Str) :
    (content_sweep content ws jid sendOk ⟨frags, false⟩).fst
      = pyStrip content := by
  unfold content_sweep
  cases h : sweepFrags ws jid sendOk frags ⟨[], [], [], 0⟩ <;> simp

/-- C4 counterexample: with a trailing-space briefing and one reference,
the fallback of `compile_content` on a raising generative call is neither
byte-for-byte (it is stripped) nor does it carry the formatted references
block — the `except` of line 322 returns only
`(combined_content or "").strip()`. -/
theorem compile_content_fallback_cex :
    (compile_content ["Alpha overview. ".data] ["https://example.com".data]
        "## References\nExample".data (.error ()) = "Alpha overview.".data)
    ∧ compile_content ["Alpha overview. ".data] ["https://example.com".data]
        "## References\nExample".data (.error ())
      ≠ "Alpha overview. ".data ++ "\n\n".data ++ "## References\nExample".data := by
  decide

/-- C4 (amended): if the generative call inside `compile_content` raises,
the function returns the whitespace-stripped concatenation of the briefing
texts joined by a paragraph break, *without* the formatted references block
(the result does not depend on `references` or the rendered block at all),
and no exception propagates. -/
theorem compile_content_error_fallback (briefingValues : List Str)
    (references : List Str) (refText : Str) :
    compile_content briefingValues references refText (.error ())
      = pyStrip (pyJoin "\n\n".data briefingValues) := rfl

/-- C6 counterexample: a BriefingSet with one non-empty category on which
the generative call succeeds but returns empty message content makes
`compile_content` return the empty string (the spec itself allows `""` as a
total-failure signal, so the unconditional non-emptiness of the claim does
not hold). -/
theorem compile_content_empty_success_cex :
    compile_content ["Perusahaan X adalah produsen baja.".data] [] []
      (.ok []) = [] := by decide

/-- C6 (amended): `compile_content` never raises (it is total: every
exception path is the explicit fallback), and whenever the generative call
fails it returns the stripped raw concatenation, which is non-empty as soon
as at least one briefing contains a non-whitespace character; only the
success path can produce empty text (empty model output, as in the
counterexample). -/
theorem compile_content_fallback_nonempty (briefingValues : List Str)
    (references : List Str) (refText : Str) (b : Str) (c : Char)
    (hb : b ∈ briefingValues) (hc : c ∈ b) (hw : pyWhitespace c = false) :
    compile_content briefingValues references refText (.error ()) ≠ [] := by
  show pyStrip (pyJoin "\n\n".data briefingValues) ≠ []
  exact pyStrip_ne_nil _ c (mem_pyJoin _ c briefingValues b hb hc) hw

/-- C6 witness: the amended theorem applied to a concrete one-briefing set
with a raising generative call. -/
theorem compile_content_fallback_nonempty_witness :
    compile_content ["Baja kuat.".data] [] [] (.error ()) ≠ [] :=
  compile_content_fallback_nonempty ["Baja kuat.".data] [] [] "Baja kuat.".data
    'B' (by decide) (by decide) (by decide)

/-- C2 counterexample: with the notifier present and all sends succeeding,
a single fragment `"Hello world.\n"` is flushed as the one emitted chunk,
but the *returned* text is the stripped accumulation `"Hello world."`, so
the returned value is not equal to the concatenation of the emitted chunks
(and no residual final flush is involved: the buffer is empty at stream
end). -/
theorem sweep_return_not_chunk_concat :
    ((content_sweep "Draf awal".data true true (fun _ => true)
        ⟨["Hello world.\n".data], true⟩).snd = ["Hello world.\n".data])
    ∧ (content_sweep "Draf awal".data true true (fun _ => true)
        ⟨["Hello world.\n".data], true⟩).fst
      ≠ (["Hello world.\n".data] : List Str).flatten := by decide

/-- C2 (amended): with `websocket_manager` and `job_id` present and every
notification send succeeding, the text `content_sweep` returns equals the
*whitespace-stripped* concatenation, in emission order, of all chunks
emitted as `report_chunk` notifications (the residual buffer being flushed
as the final chunk at stream end), for every fragment stream that
terminates normally. -/
theorem sweep_chunks_reconstruct (content : Str) (sendOk : Nat → Bool)
    (frags : List Str) (h : ∀ n, sendOk n = true) :
    (content_sweep content true true sendOk ⟨frags, true⟩).fst
      = pyStrip ((content_sweep content true true sendOk ⟨frags, true⟩).snd.flatten) := by
  obtain ⟨st', hrun, hinv⟩ :=
    sweepFrags_ok_inv sendOk h frags ⟨[], [], [], 0⟩ (by simp)
  unfold content_sweep
  rw [hrun]
  by_cases hb : st'.buf.isEmpty
  · have hfin : sweepFinish true true sendOk st' = .ok st'.sent := by
      simp [sweepFinish, hb]
    have hbe : st'.buf = [] := List.isEmpty_iff.mp hb
    simp [hfin, hinv, hbe]
  · have hfin : sweepFinish true true sendOk st' = .ok (st'.sent ++ [st'.buf]) := by
      simp [sweepFinish, hb, h st'.idx]
    simp [hfin, hinv, List.flatten_append]

/-- C2 witness: the amended theorem applied to a concrete two-fragment
stream with all sends succeeding. -/
theorem sweep_chunks_reconstruct_witness :
    (content_sweep "Draf".data true true (fun _ => true)
        ⟨["Hasil akhir laporan.".data, " Bagian penutup".data], true⟩).fst
      = pyStrip ((content_sweep "Draf".data true true (fun _ => true)
        ⟨["Hasil akhir laporan.".data, " Bagian penutup".data], true⟩).snd.flatten) :=
  sweep_chunks_reconstruct "Draf".data (fun _ => true)
    ["Hasil akhir laporan.".data, " Bagian penutup".data] (fun _ => rfl)

/-- C3 counterexample: the first chunk send raises (`sendOk 0 = false`,
every later send would succeed).  The consumption loop does *not* continue
— the exception escapes the loop to the stage-level handler of lines
436-438 — and the function returns the stripped original draft with no
chunks emitted, not the accumulated text: there is no local catch around
`send_status_update` inside the loop. -/
theorem sweep_send_failure_cex :
    (content_sweep "DRAFT".data true true (fun n => !(n == 0))
        ⟨["Hello world.\n".data, "Second sentence here.".data], true⟩
      = ("DRAFT".data, []))
    ∧ ("DRAFT".data : Str)
      ≠ pyStrip ("Hello world.\n".data ++ "Second sentence here.".data) := by
  decide

/-- C3 (amended): when a notification send raises inside the consumption
loop of `content_sweep`, the exception is caught — but by the stage-level
handler, not locally: the loop aborts, and the function returns the
stripped original draft (discarding the accumulated text) together with
the chunks already emitted before the failure; no exception propagates to
the caller. -/
theorem sweep_send_failure_returns_draft (content : Str) (ws jid : Bool)
    (sendOk : Nat → Bool) (stream : GenStream) (sent : List Str)
    (h : sweepFrags ws jid sendOk stream.frags ⟨[], [], [], 0⟩ = .error sent) :
    content_sweep content ws jid sendOk stream = (pyStrip content, sent) := by
  unfold content_sweep
  rw [h]

/-- C3 witness: the amended theorem applied to a concrete stream whose
first chunk send raises. -/
theorem sweep_send_failure_returns_draft_witness :
    content_sweep "DRAFT2".data true true (fun _ => false)
        ⟨["Hello there world.\n".data], true⟩
      = (pyStrip "DRAFT2".data, []) :=
  sweep_send_failure_returns_draft "DRAFT2".data true true (fun _ => false)
    ⟨["Hello there world.\n".data], true⟩ [] rfl

/-- C9: for the same fragment stream and draft, a run of `content_sweep`
with the notifier present (`websocket_manager` and `job_id` truthy) and one
with it absent return the same final text, provided every attempted send
succeeds — the notification channel does not influence the returned value
(the buffer-clearing of line 433 happens in both runs). -/
theorem sweep_notifier_noninterference (content : Str) (stream : GenStream)
    (sendOk sendOk' : Nat → Bool) (jid' : Bool) (h : ∀ n, sendOk n = true) :
    (content_sweep content true true sendOk stream).fst
      = (content_sweep content false jid' sendOk' stream).fst := by
  obtain ⟨r, r', hrun, hrun', hacc, _⟩ :=
    sweepFrags_acc_independent sendOk sendOk' h jid' stream.frags
      ⟨[], [], [], 0⟩ ⟨[], [], [], 0⟩ rfl rfl
  unfold content_sweep
  rw [hrun, hrun']
  cases he : stream.endOk
  · simp
  · have hfin' : sweepFinish false jid' sendOk' r' = .ok r'.sent := by
      simp [sweepFinish]
    by_cases hb : r.buf.isEmpty
    · have hfin : sweepFinish true true sendOk r = .ok r.sent := by
        simp [sweepFinish, hb]
      simp [hfin, hfin', hacc]
    · have hfin : sweepFinish true true sendOk r = .ok (r.sent ++ [r.buf]) := by
        simp [sweepFinish, hb, h r.idx]
      simp [hfin, hfin', hacc]

/-- C9 witness: the noninterference theorem applied to a concrete stream,
with all sends succeeding in the notifier-present run. -/
theorem sweep_notifier_noninterference_witness :
    (content_sweep "Draf lama".data true true (fun _ => true)
        ⟨["Laporan bagus. Sekali".data], true⟩).fst
      = (content_sweep "Draf lama".data false false (fun _ => false)
        ⟨["Laporan bagus. Sekali".data], true⟩).fst :=
  sweep_notifier_noninterference "Draf lama".data
    ⟨["Laporan bagus. Sekali".data], true⟩ (fun _ => true) (fun _ => false)
    false (fun _ => rfl)

/-- The projection of a pair-valued `if` whose branches share the first
component. -/
lemma fst_ite_pair {α β : Type} (c : Prop) [Decidable c] (a : α) (x y : β) :
    (if c then (a, x) else (a, y)).fst = a := by
  split <;> rfl

/-- A one-product catalog snapshot used for the recommendation claims. -/
def fabProduct : Product :=
  ⟨1, "bjb Giro Korporasi".data, "Giro untuk korporasi".data, "-".data,
    "-".data, "-".data⟩

/-- A parsed model response whose `product_id` exists in no catalog — a
fabricated id the prompt forbids but nothing in the code filters. -/
def fabRecord : RecRecord :=
  ⟨999, "bjb Produk Fiktif".data, "alasan".data, "potensi".data,
    "catatan".data, "aksi".data⟩

/-- A pipeline state for a successful report run (no notifier attached). -/
def fabState : ResearchState :=
  { company := some "PT Baja".data, industry := some "Baja".data
    hq_location := some "Bandung".data
    company_briefing := some "Produsen baja terkemuka.".data
    industry_briefing := none, financial_briefing := none, news_briefing := none
    references := [], report := none, status := none
    product_recommendation := none, editor_report := none, messages := []
    has_websocket := false, has_job_id := false }

/-- Oracle outcomes for that run: both generative calls succeed, the
catalog query returns the one-product snapshot, and the recommendation
model answers with the fabricated record. -/
def fabOracles : Oracles :=
  { refText := []
    compileLLM := .ok "Isi laporan riset.".data
    sweepStream := ⟨["# PT Baja Research Report. Laporan lengkap.".data], true⟩
    sweepSendOk := fun _ => true
    sendCompilationOk := true, sendCleanupOk := true, sendFormatOk := true
    sendFinalOk := true
    catalog := .ok [fabProduct]
    recLLM := fun _ => .ok [fabRecord] }

/-- C1 counterexample: a run in which the model response contains
`product_id = 999` while the catalog snapshot read for the invocation holds
only id 1.  `edit_report` stores the parsed list verbatim into
`state["product_recommendation"]` — the fabricated id appears in the
returned list, because lines 161-163 perform no membership check against
the snapshot. -/
theorem recommendation_fabricated_id_stored :
    ((edit_report fabState ["Produsen baja terkemuka.".data] fabOracles).fst.product_recommendation
      = some [fabRecord])
    ∧ fabRecord.product_id ∉ catalogIds [fabProduct] := by decide

/-- C1 (amended): the recommendation step stores exactly the parsed model
response, with no validation; consequently every `product_id` it stores is
a member of the catalog snapshot's id set precisely under the assumption
that the model response only uses snapshot ids (the property holds
conditionally on the model honoring the prompt, not unconditionally). -/
theorem recommendation_ids_of_valid_response (ps : List Product)
    (recLLM : List Product → Except Unit (List RecRecord))
    (recs : List RecRecord) (hllm : recLLM ps = .ok recs)
    (hvalid : ∀ r ∈ recs, r.product_id ∈ catalogIds ps) :
    ∀ r ∈ recommendationStep (.ok ps) recLLM, r.product_id ∈ catalogIds ps := by
  intro r hr
  apply hvalid
  have hstep : recommendationStep (.ok ps) recLLM = recs := by
    simp [recommendationStep, hllm]
  rwa [hstep] at hr

/-- A model response record whose id does exist in the snapshot. -/
def fairRecord : RecRecord :=
  ⟨1, "bjb Giro Korporasi".data, "alasan".data, "potensi".data,
    "catatan".data, "aksi".data⟩

/-- C1 witness: the amended theorem applied to a response that only uses
snapshot ids. -/
theorem recommendation_ids_of_valid_response_witness :
    fairRecord.product_id ∈ catalogIds [fabProduct] :=
  recommendation_ids_of_valid_response [fabProduct] (fun _ => .ok [fairRecord])
    [fairRecord] rfl (by decide) fairRecord (by decide)

/-- C7: when no briefing category key holds truthy content, the
orchestrator skips compilation entirely — the resulting state is the input
state with exactly one consolidated message appended (so `report`,
`status`, `product_recommendation` and the nested editor view are left
untouched; in particular an absent `report` stays absent) — and that one
message carries the warning line, provided the two unguarded status sends
of lines 39-46 and 62-69 do not raise. -/
theorem compile_briefings_empty_skips (st : ResearchState) (o : Oracles)
    (s1 s2 : Bool) (h1 : notifyOk st s1 = true) (h2 : notifyOk st s2 = true)
    (hc : truthyStr st.company_briefing = none)
    (hi : truthyStr st.industry_briefing = none)
    (hf : truthyStr st.financial_briefing = none)
    (hn : truthyStr st.news_briefing = none) :
    compile_briefings st o s1 s2
      = .ok { st with messages := st.messages ++ [compileBriefingsMessage st] }
    ∧ compileBriefingsMessage st
      = pyJoin "\n".data (collectMsgLines st
          ++ ["\n⚠️ No briefing sections available to compile".data]) := by
  have hcoll : collectBriefings st = [] := by
    simp [collectBriefings, briefingEntries, hc, hi, hf, hn]
  refine ⟨?_, ?_⟩
  · unfold compile_briefings
    simp [h1, h2, hcoll]
  · unfold compileBriefingsMessage
    simp [hcoll]

/-- A state whose briefing keys are all falsy (one absent, one present but
empty — both falsy in Python), with a pre-existing log entry. -/
def noBriefState : ResearchState :=
  { company := some "PT Kosong".data, industry := none, hq_location := none
    company_briefing := none, industry_briefing := some []
    financial_briefing := none, news_briefing := none
    references := [], report := none, status := none
    product_recommendation := none, editor_report := none
    messages := ["pesan lama".data], has_websocket := false, has_job_id := false }

/-- Oracle outcomes that are never consulted on the empty-briefing path. -/
def noBriefOracles : Oracles :=
  { refText := [], compileLLM := .error (), sweepStream := ⟨[], true⟩
    sweepSendOk := fun _ => true, sendCompilationOk := true
    sendCleanupOk := true, sendFormatOk := true, sendFinalOk := true
    catalog := .error (), recLLM := fun _ => .error () }

/-- C7 witness: the theorem applied to the concrete all-falsy state. -/
theorem compile_briefings_empty_skips_witness :
    compile_briefings noBriefState noBriefOracles true true
      = .ok { noBriefState with
          messages := noBriefState.messages
            ++ [compileBriefingsMessage noBriefState] }
    ∧ compileBriefingsMessage noBriefState
      = pyJoin "\n".data (collectMsgLines noBriefState
          ++ ["\n⚠️ No briefing sections available to compile".data]) :=
  compile_briefings_empty_skips noBriefState noBriefOracles true true
    (by decide) (by decide) (by decide) (by decide) (by decide) (by decide)

/-- C8: once the report step has succeeded (sends up to the format step
succeed, the compiled draft is truthy and the swept report strips to
non-empty text, so `state["report"]` and `state["status"]` are written),
any failure in the recommendation step — catalog query error, or
generative/parse error — leaves `report` equal to the swept final text and
`status` equal to `"editor_complete"`, and sets `product_recommendation`
to the empty list; the exception is caught by the local handler of lines
164-166 and never escapes `edit_report` (the model function is total). -/
theorem edit_report_rec_failure_isolated (st : ResearchState)
    (bv : List Str) (o : Oracles)
    (h1 : notifyOk st o.sendCompilationOk = true)
    (h2 : notifyOk st o.sendCleanupOk = true)
    (h3 : notifyOk st o.sendFormatOk = true)
    (hcomp : (compile_content bv st.references o.refText o.compileLLM).isEmpty
      = false)
    (hsweep : (pyStrip (content_sweep
        (compile_content bv st.references o.refText o.compileLLM)
        st.has_websocket st.has_job_id o.sweepSendOk o.sweepStream).fst).isEmpty
      = false)
    (hrec : o.catalog = .error ()
      ∨ ∃ ps, o.catalog = .ok ps ∧ o.recLLM ps = .error ()) :
    (edit_report st bv o).fst.report
        = some (content_sweep
            (compile_content bv st.references o.refText o.compileLLM)
            st.has_websocket st.has_job_id o.sweepSendOk o.sweepStream).fst
    ∧ (edit_report st bv o).fst.status = some "editor_complete".data
    ∧ (edit_report st bv o).fst.product_recommendation = some [] := by
  have hrecs : recommendationStep o.catalog o.recLLM = [] := by
    rcases hrec with hcat | ⟨ps, hcat, hllm⟩
    · simp [recommendationStep, hcat]
    · simp [recommendationStep, hcat, hllm]
  unfold edit_report
  simp [h1, h2, h3, hcomp, hsweep, hrecs, fst_ite_pair]

/-- A state and oracle set for a successful report run whose catalog query
raises. -/
def recFailState : ResearchState :=
  { company := some "PT Maju".data, industry := some "Baja".data
    hq_location := some "Bandung".data
    company_briefing := some "Ringkasan perusahaan.".data
    industry_briefing := none, financial_briefing := none, news_briefing := none
    references := [], report := none, status := none
    product_recommendation := none, editor_report := none, messages := []
    has_websocket := false, has_job_id := false }

/-- Oracles for that run: both generative calls succeed, the catalog query
raises. -/
def recFailOracles : Oracles :=
  { refText := []
    compileLLM := .ok "Laporan inti yang panjang.".data
    sweepStream := ⟨["# Laporan akhir. Selesai dan lengkap.".data], true⟩
    sweepSendOk := fun _ => true
    sendCompilationOk := true, sendCleanupOk := true, sendFormatOk := true
    sendFinalOk := true
    catalog := .error ()
    recLLM := fun _ => .ok [] }

/-- C8 witness: the isolation theorem applied to the concrete run with a
raising catalog query. -/
theorem edit_report_rec_failure_isolated_witness :
    (edit_report recFailState ["Ringkasan perusahaan.".data] recFailOracles).fst.report
        = some (content_sweep
            (compile_content ["Ringkasan perusahaan.".data]
              recFailState.references recFailOracles.refText
              recFailOracles.compileLLM)
            recFailState.has_websocket recFailState.has_job_id
            recFailOracles.sweepSendOk recFailOracles.sweepStream).fst
    ∧ (edit_report recFailState ["Ringkasan perusahaan.".data] recFailOracles).fst.status
        = some "editor_complete".data
    ∧ (edit_report recFailState ["Ringkasan perusahaan.".data] recFailOracles).fst.product_recommendation
        = some [] :=
  edit_report_rec_failure_isolated recFailState ["Ringkasan perusahaan.".data]
    recFailOracles (by decide) (by decide) (by decide) (by decide) (by decide)
    (Or.inl rfl)
